import Mathlib

/-!
Verification development for the gogrepo web control surface (`src/app.py`).

The file embeds, as executable Lean definitions, the parts of `app.py` that
the job-orchestration and login claims are about:

* the `Job` record and its `append`/`finish` methods (app.py lines 133-154);
* the background runner `_run_stream` (lines 160-188), split into its
  sequential output-producing part and its `finally` pointer cleanup;
* `start_job` (lines 190-199), `cancel_job` (lines 201-219);
* the Flask endpoints `job_status` (lines 448-455) and `current_job`
  (lines 457-472);
* the two branches of the `login` endpoint (lines 361-428): the first-step
  flow (`begin_login` in the external interface vocabulary) and the
  token/OTP branch (`submit_login_code`);
* the cover cache-aside `_cache_cover_from_url` with `_is_fresh` and
  `_cover_cache_path_from_url` (lines 51-78 and 110-130).

External effects (the file system, the spawned process, the HTTP fetch,
pexpect) are modelled by explicit behaviour/oracle parameters; everything
else is translated line by line from the Python source.  Python `str`
operations are given as explicit character-list functions so that every
definition evaluates inside the kernel.
-/

namespace GogrepoApp

/-! ## Python string primitives

Python `str` methods used by the embedded code, written over `List Char`
so that they reduce definitionally. -/

/-- Python `str.lower()` (ASCII case fold is all the code relies on). -/
def pyLower (s : String) : String :=
  String.mk (s.data.map Char.toLower)

/-- Python `s.split(sep)[0]` for a one-character separator: the text before
the first occurrence of the separator (the whole string if absent). -/
def pySplitHead (sep : Char) (s : String) : String :=
  String.mk (s.data.takeWhile (fun c => c ≠ sep))

/-- Python `str.endswith(suffix)`. -/
def pyEndsWith (s suf : String) : Bool :=
  List.isSuffixOf suf.data s.data

/-- Characters stripped by Python `str.strip()` with no argument. -/
def pyIsSpace (c : Char) : Bool :=
  c = ' ' || c = '\t' || c = '\n' || c = '\x0d' || c = '\x0b' || c = '\x0c'

/-- Python `str.strip()`: drop leading and trailing whitespace. -/
def pyStrip (s : String) : String :=
  String.mk (((s.data.dropWhile pyIsSpace).reverse.dropWhile pyIsSpace).reverse)

/-- Python `sep.join(parts)`. -/
def pyJoin (sep : String) (parts : List String) : String :=
  String.mk (List.intercalate sep.data (parts.map String.data))

/-! ## `shlex.quote`

CPython's `shlex.quote`: safe strings pass through; the empty string
becomes `''`; anything else is wrapped in single quotes with embedded
single quotes rewritten to `'"'"'`. -/

/-- A character that `shlex`'s `_find_unsafe` ASCII regex does not match:
word characters and `@ % + = : , . - ` and the forward slash are safe. -/
def shlexSafeChar (c : Char) : Bool :=
  (c ≥ 'a' && c ≤ 'z') || (c ≥ 'A' && c ≤ 'Z') || (c ≥ '0' && c ≤ '9') ||
  c = '_' || c = '@' || c = '%' || c = '+' || c = '=' || c = ':' ||
  c = ',' || c = '.' || c = '/' || c = '-'

/-- `s.replace("'", "'\"'\"'")` from `shlex.quote`, per character. -/
def shlexEscapeChar (c : Char) : List Char :=
  if c = '\x27' then ['\x27', '"', '\x27', '"', '\x27'] else [c]

/-- CPython `shlex.quote`. -/
def shlexQuote (s : String) : String :=
  if s = "" then "\x27\x27"
  else if s.data.all shlexSafeChar then s
  else String.mk ('\x27' :: s.data.flatMap shlexEscapeChar ++ ['\x27'])

/-! ## Job data model (app.py lines 133-158) -/

/-- `Job.status` values: `"running" | "finished" | "error" | "canceled"`
(app.py line 136). -/
inductive Status
  | running
  | finished
  | error
  | canceled
deriving DecidableEq

/-- A status is terminal when it is one of `finished`, `error`, `canceled`. -/
def Status.isTerminal : Status → Bool
  | .running => false
  | .finished => true
  | .error => true
  | .canceled => true

/-- The `Job` record (app.py lines 133-140).  `proc` is `None` until
`_run_stream` assigns the spawned `Popen` handle (line 176); the handle
itself is opaque here.  The per-job lock only serialises field access and
has no observable effect on the sequential field values, so it is not
modelled as data. -/
structure Job where
  status : Status
  output : String
  rc : Option Int
  proc : Option Unit
deriving DecidableEq

/-- `Job.__init__` (app.py lines 135-140). -/
def Job.init : Job :=
  { status := .running, output := "", rc := none, proc := none }

/-- `Job.append` (app.py lines 142-145): `self.output += text`. -/
def Job.append (j : Job) (text : String) : Job :=
  { j with output := j.output ++ text }

/-- `Job.finish` (app.py lines 147-154): sets `rc`, then sets `status` to
the explicit status when one is given, else `finished`/`error` by `rc`. -/
def Job.finish (j : Job) (rc : Int) (status : Option Status) : Job :=
  { j with
    rc := some rc
    status :=
      match status with
      | some s => s
      | none => if rc = 0 then .finished else .error }

/-! ## Job registry and orchestration (app.py lines 156-219, 448-482)

`jobs` is a Python dict `job_id -> Job`; it is modelled as an association
list in insertion order (dict assignment of a fresh key appends, and
iteration visits insertion order).  `_current_job_id` is the shared
current-job pointer. -/

/-- The `jobs` dict (app.py line 156). -/
abbrev Registry := List (String × Job)

/-- `jobs.get(job_id)` (dict lookup; keys are fresh uuids, hence unique). -/
def jobsGet (jobs : Registry) (job_id : String) : Option Job :=
  (jobs.find? (fun p => p.1 = job_id)).map (fun p => p.2)

/-- `jobs[job_id] = j` with Python dict semantics: overwrite in place when
the key exists, else append in insertion order. -/
def jobsSet (jobs : Registry) (job_id : String) (j : Job) : Registry :=
  if (jobs.find? (fun p => p.1 = job_id)).isSome then
    jobs.map (fun p => if p.1 = job_id then (p.1, j) else p)
  else
    jobs ++ [(job_id, j)]

/-- The module-level shared state: the `jobs` dict and `_current_job_id`
(app.py lines 156-157). -/
structure OrchState where
  jobs : Registry
  currentJobId : Option String
deriving DecidableEq

/-- What the spawned subprocess does in one run of `_run_stream`:
either `Popen` succeeds and yields a line stream and an exit code, or the
spawn (or the streaming loop) raises an exception whose rendering is
`errMsg` with traceback `errTb`. -/
structure RunBehavior where
  spawnOk : Bool
  lines : List String
  rc : Int
  errMsg : String
  errTb : String

/-- The command echo appended first by `_run_stream` (app.py line 166):
`"$ " + " ".join(shlex.quote(a) for a in args) + "\n"`. -/
def echoLine (args : List String) : String :=
  "$ " ++ pyJoin " " (args.map shlexQuote) ++ "\n"

/-- The `try`/`except` body of `_run_stream` (app.py lines 160-184): echo
the command, spawn, record the handle, forward each output line, then
finish from the exit code unless the status already left `running`; on an
exception append the error text and finish with rc 1.  The `finally`
pointer cleanup (lines 185-188) is `_run_stream_finally` below; the
environment tweak and `cwd` have no effect on the job record. -/
def _run_stream (args : List String) (beh : RunBehavior) (job : Job) : Job :=
  let job := job.append (echoLine args)
  if beh.spawnOk then
    let job := { job with proc := some () }
    let job := beh.lines.foldl Job.append job
    if job.status = Status.running then job.finish beh.rc none else job
  else
    let job := job.append ("\n[ERROR] " ++ beh.errMsg ++ "\n" ++ beh.errTb ++ "\n")
    job.finish 1 none

/-- The `finally` block of `_run_stream` (app.py lines 185-188): clear
`_current_job_id` only if it still points at this job. -/
def _run_stream_finally (ptr : Option String) (job_id : String) : Option String :=
  if ptr = some job_id then none else ptr

/-- `start_job` (app.py lines 190-199): register a fresh `Job` under a new
uuid (passed in here), point `_current_job_id` at it, start the background
thread, and return the id.  The registry insertion and pointer write both
happen before the id is returned. -/
def start_job (st : OrchState) (newId : String) : String × OrchState :=
  (newId, { jobs := jobsSet st.jobs newId Job.init, currentJobId := some newId })

/-- One process-level action taken by `cancel_job`, with the timeout (in
seconds) passed to `wait`. -/
inductive ProcAction
  | terminate
  | wait (timeoutSeconds : Nat)
  | kill
deriving DecidableEq

/-- How the process responds to `cancel_job`'s terminate/wait/kill
sequence: it exits within the 5s grace period; or it ignores the graceful
signal and is killed; or some call of the sequence raises — `raisesEarly`
for `terminate` itself, `raisesLate` for `kill`/the second `wait` after
the first `wait` timed out. -/
inductive TermBehavior
  | exitsInTime
  | needsKill
  | raisesEarly (msg : String)
  | raisesLate (msg : String)
deriving DecidableEq

/-- Behaviour oracle for one `cancel_job` call.  `procRc` is the exit code
the process itself would report; the code never reads the result of
`wait`, so this field is unused by `cancel_job`. -/
structure CancelBehavior where
  term : TermBehavior
  procRc : Int
deriving DecidableEq

/-- Result of `cancel_job`: the returned `(ok, message)` pair, the updated
job record (when one was found), and the sequence of process actions
taken. -/
structure CancelResult where
  ok : Bool
  message : String
  job : Option Job
  actions : List ProcAction
deriving DecidableEq

/-- `cancel_job` (app.py lines 201-219).  `jobs.get(job_id or "")`; bail
out with `(False, "No running job")` when the job is missing, not
`running`, or has no process handle; otherwise append the info line,
terminate, wait up to 5s, on timeout append the kill line, kill and wait
again, then `finish(-9, status="canceled")`; any exception appends the
error line and returns `(False, str(e))` without touching `status`. -/
def cancel_job (jobs : Registry) (job_id : Option String) (beh : CancelBehavior) :
    CancelResult :=
  match jobsGet jobs (job_id.getD "") with
  | none => { ok := false, message := "No running job", job := none, actions := [] }
  | some job =>
    if job.status ≠ Status.running ∨ job.proc = none then
      { ok := false, message := "No running job", job := some job, actions := [] }
    else
      let job := job.append "\n[INFO] Cancel requested, terminating process...\n"
      match beh.term with
      | .exitsInTime =>
          { ok := true, message := "Canceled",
            job := some (job.finish (-9) (some Status.canceled)),
            actions := [.terminate, .wait 5] }
      | .needsKill =>
          let job := job.append "[INFO] Process did not terminate, killing...\n"
          { ok := true, message := "Canceled",
            job := some (job.finish (-9) (some Status.canceled)),
            actions := [.terminate, .wait 5, .kill, .wait 5] }
      | .raisesEarly msg =>
          { ok := false, message := msg,
            job := some (job.append ("[ERROR] Cancel failed: " ++ msg ++ "\n")),
            actions := [.terminate] }
      | .raisesLate msg =>
          let job := job.append "[INFO] Process did not terminate, killing...\n"
          { ok := false, message := msg,
            job := some (job.append ("[ERROR] Cancel failed: " ++ msg ++ "\n")),
            actions := [.terminate, .wait 5, .kill] }

/-! ## Status-reporting endpoints (app.py lines 448-472) -/

/-- The status string rendered into JSON for each `Status` value. -/
def statusStr : Status → String
  | .running => "running"
  | .finished => "finished"
  | .error => "error"
  | .canceled => "canceled"

/-- The JSON body of `/job_status/<job_id>`. -/
structure JobStatusJson where
  status : String
  output : String
  rc : Option Int
deriving DecidableEq

/-- `job_status` (app.py lines 448-455): unknown ids get the `"unknown"`
sentinel; otherwise a snapshot of the job's fields. -/
def job_status (jobs : Registry) (job_id : String) : JobStatusJson :=
  match jobsGet jobs job_id with
  | none => { status := "unknown", output := "", rc := none }
  | some job => { status := statusStr job.status, output := job.output, rc := job.rc }

/-- The JSON body of `/current_job`. -/
structure CurrentJobJson where
  job_id : Option String
  status : String
  output : String
  rc : Option Int
deriving DecidableEq

/-- The idle response of `/current_job`. -/
def idleJson : CurrentJobJson :=
  { job_id := none, status := "idle", output := "", rc := none }

/-- `current_job` (app.py lines 457-472): read the pointer; if it is
empty, scan the registry in insertion order for the first job still
`running`; if the resulting id is empty or absent answer idle, else a
snapshot of that job. -/
def current_job (jobs : Registry) (ptr : Option String) : CurrentJobJson :=
  let jid :=
    match ptr with
    | some j => some j
    | none => (jobs.find? (fun p => p.2.status == Status.running)).map (fun p => p.1)
  match jid with
  | none => idleJson
  | some j =>
    match jobsGet jobs j with
    | none => idleJson
    | some job =>
      { job_id := some j, status := statusStr job.status,
        output := job.output, rc := job.rc }

/-! ## The operations that touch the job registry (for the grow-only
invariant).  In the Python module the only writes to `jobs` are the
insertion in `start_job`; the background thread and `cancel_job` mutate
the `Job` objects in place and never add or remove a key; `job_status`
and `current_job` only read. -/

/-- An in-place mutation of one `Job` record, as performed by the
background thread (`append`, the `proc` assignment, `finish`) or by
`cancel_job` through the same methods. -/
inductive JobMut
  | append (text : String)
  | setProc
  | finish (rc : Int) (status : Option Status)

/-- Apply a `JobMut` to a job record. -/
def applyMut (j : Job) : JobMut → Job
  | .append t => j.append t
  | .setProc => { j with proc := some () }
  | .finish rc st => j.finish rc st

/-- Replace the value stored under `job_id` (in-place object mutation seen
through the registry); keys are untouched. -/
def jobsUpdate (jobs : Registry) (job_id : String) (m : JobMut) : Registry :=
  jobs.map (fun p => if p.1 = job_id then (p.1, applyMut p.2 m) else p)

/-- One shared-state-affecting operation of the job subsystem. -/
inductive SysOp
  | startJob (newId : String)
  | mutate (job_id : String) (m : JobMut)
  | runStreamDone (job_id : String)
  | cancel (job_id : Option String) (beh : CancelBehavior)

/-- Effect of each operation on the module-level state. -/
def applyOp (st : OrchState) : SysOp → OrchState
  | .startJob newId => (start_job st newId).2
  | .mutate job_id m => { st with jobs := jobsUpdate st.jobs job_id m }
  | .runStreamDone job_id =>
      { st with currentJobId := _run_stream_finally st.currentJobId job_id }
  | .cancel job_id beh =>
      match (cancel_job st.jobs job_id beh).job with
      | none => st
      | some j =>
          { st with
            jobs := st.jobs.map
              (fun p => if p.1 = job_id.getD "" then (p.1, j) else p) }

/-- Apply a sequence of operations left to right. -/
def applyOps (st : OrchState) (ops : List SysOp) : OrchState :=
  ops.foldl applyOp st

/-! ## Two-step login (app.py lines 346, 361-428)

`login_children` is the session registry `token -> pexpect child`.  The
child handle is opaque; a `Nat` stands for its identity.  The `login`
endpoint has two branches: with a `login_token` form field it is the
code-submission step (`submit_login_code` in the interface vocabulary,
lines 369-388), otherwise the first step (`begin_login`, lines 390-428).
pexpect behaviour is an oracle parameter. -/

/-- The `login_children` dict (app.py line 346). -/
abbrev SessionRegistry := List (String × Nat)

/-- `login_children.get(token)`. -/
def sessGet (reg : SessionRegistry) (token : String) : Option Nat :=
  (reg.find? (fun p => p.1 = token)).map (fun p => p.2)

/-- `login_children.pop(token, None)` (the binding removed; keys are
fresh uuids, hence unique). -/
def sessPop (reg : SessionRegistry) (token : String) : SessionRegistry :=
  reg.filter (fun p => p.1 != token)

/-- How the first-step login flow unfolds, one constructor per exit path
of the `try` block (app.py lines 392-427): the spawn raises; one of the
three `expect` calls raises `pexpect.TIMEOUT`; some other exception is
raised after spawning; `expect` matches `EOF` (index 5, logged in with no
code prompt); or one of the five recognized code prompts matches. -/
inductive BeginBehavior
  | spawnFails (msg : String)
  | usernameTimeout
  | passwordTimeout
  | outcomeTimeout
  | otherError (msg : String)
  | eof (before : String)
  | codePrompt (idx : Fin 5) (before : String)

/-- Observable outcome of the first-step login flow: the `flash` calls,
whether `pexpect.spawn` returned a child, whether `child.close(force=True)`
was invoked on any path, and the token under which the child was parked in
`login_children` (when the 2FA branch was taken). -/
structure BeginResult where
  flashes : List (String × String)
  spawned : Bool
  closed : Bool
  parked : Option String
  need2fa : Bool
deriving DecidableEq

/-- The first-step branch of `login` (app.py lines 390-428).  Only the
`EOF` branch closes the child (lines 410-413); the `pexpect.TIMEOUT` and
generic `except` handlers (lines 424-427) flash and return without any
`close`; the 2FA branch parks the live child under a fresh token
(lines 417-422). -/
def begin_login (newToken : String) (beh : BeginBehavior) : BeginResult :=
  match beh with
  | .spawnFails msg =>
      { flashes := [("Login error: " ++ msg, "error")],
        spawned := false, closed := false, parked := none, need2fa := false }
  | .usernameTimeout =>
      { flashes := [("Timeout during login", "error")],
        spawned := true, closed := false, parked := none, need2fa := false }
  | .passwordTimeout =>
      { flashes := [("Timeout during login", "error")],
        spawned := true, closed := false, parked := none, need2fa := false }
  | .outcomeTimeout =>
      { flashes := [("Timeout during login", "error")],
        spawned := true, closed := false, parked := none, need2fa := false }
  | .otherError msg =>
      { flashes := [("Login error: " ++ msg, "error")],
        spawned := true, closed := false, parked := none, need2fa := false }
  | .eof before =>
      { flashes := [(before, "info")],
        spawned := true, closed := true, parked := none, need2fa := false }
  | .codePrompt _ _ =>
      { flashes :=
          [("Enter 2FA code from email/app — login process is waiting for your code.",
            "info")],
        spawned := true, closed := false, parked := some newToken, need2fa := true }

/-- How the code-submission step unfolds once a child was found:
`sendline`+`expect(EOF)` succeed with `before` as the preceding output, or
one of them raises (a timeout or any other error). -/
inductive SubmitRun
  | eofOk (before : String)
  | raisesMsg (msg : String)

/-- Behaviour oracle for `submit_login_code`; `closeRaises` says whether
`child.close(force=True)` in the `finally` block raises (that error is
swallowed by the inner `try`/`except pass`, so it never affects the
result). -/
structure SubmitBehavior where
  run : SubmitRun
  closeRaises : Bool

/-- Observable outcome of the code-submission step: `flash` calls, the
session registry afterwards, how many times `child.close(force=True)` was
invoked, and whether `session["login_token"]` was popped. -/
structure SubmitResult where
  flashes : List (String × String)
  registry : SessionRegistry
  closeCalls : Nat
  sessionTokenPopped : Bool
deriving DecidableEq

/-- The token branch of `login` (app.py lines 369-388): unknown tokens
flash "session expired" and change nothing; otherwise send the code,
wait for `EOF` (240s) and flash `child.before`, or flash the error; the
`finally` block always closes the child once (errors swallowed) and pops
the token from `login_children` and the Flask session. -/
def submit_login_code (reg : SessionRegistry) (token : String) (beh : SubmitBehavior) :
    SubmitResult :=
  match sessGet reg token with
  | none =>
      { flashes := [("Login session expired — start again.", "error")],
        registry := reg, closeCalls := 0, sessionTokenPopped := false }
  | some _child =>
      let fl :=
        match beh.run with
        | .eofOk before => [(before, "info")]
        | .raisesMsg msg => [("2FA login error: " ++ msg, "error")]
      { flashes := fl, registry := sessPop reg token,
        closeCalls := 1, sessionTokenPopped := true }

/-! ## Cover cache-aside (app.py lines 41-44, 51-59, 70-78, 110-130)

The file system is an oracle giving each path's mtime in milliseconds (or
`none` when the file does not exist) and the current clock; `hashHex`
stands for `_sha256` (an external hash); `fetchOk` says whether the HTTP
get + `raise_for_status` + write succeed. -/

/-- `DAY_MS` (app.py line 42). -/
def DAY_MS : Int := 24 * 60 * 60 * 1000

/-- `COVER_TTL` (app.py line 44): 30 days for covers. -/
def COVER_TTL : Int := 30 * DAY_MS

/-- `COVER_DIR` under the default `DATA_DIR` (app.py lines 23, 35, 37). -/
def COVER_DIR : String := "/data/Cache/cover"

/-- The file-system view: `st_mtime` in milliseconds per existing path,
and the current `_now_ms()` clock. -/
structure FsState where
  mtimeMs : String → Option Int
  nowMs : Int

/-- `_is_fresh` (app.py lines 51-59): true iff the file exists and its
mtime is within the TTL window; a missing file (`FileNotFoundError`)
gives false. -/
def _is_fresh (fs : FsState) (path : String) (ttl_ms : Int) : Bool :=
  match fs.mtimeMs path with
  | some m => decide (fs.nowMs - m < ttl_ms)
  | none => false

/-- The extension list probed by `_cover_cache_path_from_url`
(app.py line 73). -/
def coverExts : List String := [".jpg", ".jpeg", ".png", ".webp", ".gif"]

/-- `_cover_cache_path_from_url` (app.py lines 70-78): keep a common
extension when `url.lower().split("?")[0]` ends with one (first match in
order, default `.bin`), key by the hash of `url.strip()`. -/
def _cover_cache_path_from_url (hashHex : String → String) (url : String) : String :=
  let base_ext :=
    (coverExts.find? (fun ext => pyEndsWith (pySplitHead '?' (pyLower url)) ext)).getD ".bin"
  let key := hashHex (pyStrip url)
  COVER_DIR ++ "/" ++ key ++ base_ext

/-- Observable outcome of `_cache_cover_from_url`: the returned path (if
any), whether the HTTP fetch was attempted, and whether a freshly fetched
file was persisted at the cache path. -/
structure CoverOutcome where
  result : Option String
  fetched : Bool
  persisted : Bool
deriving DecidableEq

/-- `_cache_cover_from_url` (app.py lines 110-130): empty url gives
`None`; a fresh cached file short-circuits to its path; otherwise fetch,
persist and return the cache path; on any fetch error fall back to a
stale file at that path if one exists, else `None`. -/
def _cache_cover_from_url (fs : FsState) (hashHex : String → String) (fetchOk : Bool)
    (url : String) : CoverOutcome :=
  if url = "" then { result := none, fetched := false, persisted := false }
  else
    let url := pyStrip url
    let path := _cover_cache_path_from_url hashHex url
    if _is_fresh fs path COVER_TTL then
      { result := some path, fetched := false, persisted := false }
    else if fetchOk then
      { result := some path, fetched := true, persisted := true }
    else if (fs.mtimeMs path).isSome then
      { result := some path, fetched := true, persisted := false }
    else
      { result := none, fetched := true, persisted := false }

/-! ## The status race between the background thread and `cancel_job`

An interleaving model of the two threads that write one job's `status`:
the background `_run_stream` thread after its spawn (app.py lines
166-184) and one `cancel_job` call (lines 201-219).  Each atomic step is
one read or one lock-protected method call, exactly as in the source; the
lock-free read `job.status == "running"` on line 180 is its own step,
separate from the `job.finish(rc)` it guards on line 181. -/

/-- Program counter of the background thread: streaming output (lines
166-178), returned from `proc.wait()` and about to test the status (line
180), test passed and about to call `job.finish(rc)` (line 181), inside
the `except` handler about to call `job.finish(1)` (line 184), or done. -/
inductive BgPC
  | streaming
  | postWait
  | willFinish
  | willExcFinish
  | done
deriving DecidableEq

/-- Program counter of the cancelling thread: about to evaluate the guard
(line 204), past the guard inside terminate/wait/kill (lines 207-214),
about to call `job.finish(-9, "canceled")` (line 215), returned true, or
returned false (guard failed or an exception was caught). -/
inductive CancelPC
  | atCheck
  | working
  | willFinish
  | done
  | failed
deriving DecidableEq

/-- Joint state of one job and the two threads racing on it; `bgRc` is
the exit code `proc.wait()` returns to the background thread. -/
structure RaceState where
  job : Job
  bg : BgPC
  cancel : CancelPC
  bgRc : Int
deriving DecidableEq

/-- State right after `start_job` spawned the background thread for a
fresh job and a cancel request arrived: the job is `running` with no
recorded handle yet. -/
def raceInit (rc : Int) : RaceState :=
  { job := Job.init, bg := .streaming, cancel := .atCheck, bgRc := rc }

/-- One atomic step of either thread.  Constructors map one-to-one onto
the statements of app.py: `bgAppendLine` (lines 166, 177-178),
`bgSetProc` (line 176), `bgWaitReturns` (line 179), `bgRaises` (lines
182-183), `bgCheckRunning`/`bgCheckNotRunning` (line 180), `bgFinish`
(line 181), `bgExcFinish` (line 184), `cancelGuardPass` (lines 204, 207),
`cancelGuardFail` (lines 204-205), `cancelKillLine` (line 212),
`cancelWaitReturns` (lines 208-214), `cancelRaises` (lines 217-219),
`cancelFinish` (line 215). -/
inductive RaceStep : RaceState → RaceState → Prop
  | bgAppendLine (s : RaceState) (line : String) : s.bg = .streaming →
      RaceStep s { s with job := s.job.append line }
  | bgSetProc (s : RaceState) : s.bg = .streaming →
      RaceStep s { s with job := { s.job with proc := some () } }
  | bgWaitReturns (s : RaceState) : s.bg = .streaming →
      RaceStep s { s with bg := .postWait }
  | bgRaises (s : RaceState) (errText : String) : s.bg = .streaming →
      RaceStep s { s with bg := .willExcFinish, job := s.job.append errText }
  | bgCheckRunning (s : RaceState) : s.bg = .postWait → s.job.status = .running →
      RaceStep s { s with bg := .willFinish }
  | bgCheckNotRunning (s : RaceState) : s.bg = .postWait → s.job.status ≠ .running →
      RaceStep s { s with bg := .done }
  | bgFinish (s : RaceState) : s.bg = .willFinish →
      RaceStep s { s with bg := .done, job := s.job.finish s.bgRc none }
  | bgExcFinish (s : RaceState) : s.bg = .willExcFinish →
      RaceStep s { s with bg := .done, job := s.job.finish 1 none }
  | cancelGuardPass (s : RaceState) :
      s.cancel = .atCheck → s.job.status = .running → s.job.proc ≠ none →
      RaceStep s { s with cancel := .working,
                          job := s.job.append "\n[INFO] Cancel requested, terminating process...\n" }
  | cancelGuardFail (s : RaceState) :
      s.cancel = .atCheck → s.job.status ≠ .running ∨ s.job.proc = none →
      RaceStep s { s with cancel := .failed }
  | cancelKillLine (s : RaceState) : s.cancel = .working →
      RaceStep s { s with
        job := s.job.append "[INFO] Process did not terminate, killing...\n" }
  | cancelWaitReturns (s : RaceState) : s.cancel = .working →
      RaceStep s { s with cancel := .willFinish }
  | cancelRaises (s : RaceState) (msg : String) : s.cancel = .working →
      RaceStep s { s with cancel := .failed,
                          job := s.job.append ("[ERROR] Cancel failed: " ++ msg ++ "\n") }
  | cancelFinish (s : RaceState) : s.cancel = .willFinish →
      RaceStep s { s with cancel := .done,
                          job := s.job.finish (-9) (some Status.canceled) }

/-- Reflexive-transitive closure. -/
inductive Star {α : Type} (r : α → α → Prop) : α → α → Prop
  | refl (a : α) : Star r a a
  | tail {a b c : α} : Star r a b → r b c → Star r a c

/-! ## Observers and helper lemmas -/

/-- The shell-quoted command line `" ".join(shlex.quote(a) for a in args)`
rendered by the echo on app.py line 166. -/
def cmdline (args : List String) : String :=
  pyJoin " " (args.map shlexQuote)

/-- The first line of a text blob: everything before the first newline. -/
def firstLine (s : String) : String :=
  String.mk (s.data.takeWhile (fun c => c ≠ '\n'))

/-- A reachable race state in which `cancel_job` has already finished the
job as `canceled` while the background thread has passed its
`status == "running"` test and is about to call `job.finish(rc)`. -/
def cexCanceled : RaceState :=
  { job := { status := Status.canceled,
             output := "\n[INFO] Cancel requested, terminating process...\n",
             rc := some (-9), proc := some () },
    bg := BgPC.willFinish, cancel := CancelPC.done, bgRc := 0 }

/-- The state after the background thread's pending `job.finish(0)` fires
on `cexCanceled`: the terminal `canceled` status is overwritten by
`finished`. -/
def cexFinished : RaceState :=
  { job := { status := Status.finished,
             output := "\n[INFO] Cancel requested, terminating process...\n",
             rc := some 0, proc := some () },
    bg := BgPC.done, cancel := CancelPC.done, bgRc := 0 }

theorem takeWhile_all_append_cons {p : Char → Bool} :
    ∀ (l1 : List Char) (c : Char) (l2 : List Char),
      (∀ x ∈ l1, p x = true) → p c = false →
      (l1 ++ c :: l2).takeWhile p = l1 := by
  intro l1
  induction l1 with
  | nil =>
    intro c l2 _ hc
    simp [List.takeWhile_cons, hc]
  | cons a t ih =>
    intro c l2 h1 hc
    have ha : p a = true := h1 a (by simp)
    simp [List.takeWhile_cons, ha]
    exact ih c l2 (fun x hx => h1 x (by simp [hx])) hc

theorem foldl_append_status (ls : List String) (j : Job) :
    (ls.foldl Job.append j).status = j.status := by
  induction ls generalizing j with
  | nil => rfl
  | cons a t ih => exact (ih (j.append a)).trans rfl

theorem foldl_append_output_data (ls : List String) (j : Job) :
    ∃ rest : List Char, ((ls.foldl Job.append j).output).data = j.output.data ++ rest := by
  induction ls generalizing j with
  | nil => exact ⟨[], by simp⟩
  | cons a t ih =>
    obtain ⟨r, hr⟩ := ih (j.append a)
    refine ⟨a.data ++ r, ?_⟩
    simpa [Job.append, String.data_append] using hr

theorem run_stream_output_starts_with_echo (args : List String) (beh : RunBehavior) :
    ∃ rest : List Char,
      ((_run_stream args beh Job.init).output).data = (echoLine args).data ++ rest := by
  by_cases hsp : beh.spawnOk
  · have hst : ((beh.lines.foldl Job.append
        { Job.init.append (echoLine args) with proc := some () }).status) = Status.running :=
      foldl_append_status _ _
    obtain ⟨r, hr⟩ := foldl_append_output_data beh.lines
      { Job.init.append (echoLine args) with proc := some () }
    refine ⟨r, ?_⟩
    simp only [_run_stream, hsp, if_true, hst, Job.finish]
    simpa [Job.init, Job.append] using hr
  · refine ⟨("\n[ERROR] " ++ beh.errMsg ++ "\n" ++ beh.errTb ++ "\n").data, ?_⟩
    simp [_run_stream, hsp, Job.finish, Job.append, Job.init, String.data_append]

/-! ## Claim C7 -/

/-- Claim C7: when a job's background thread exits, the `finally` block
of `_run_stream` clears the shared current-job pointer exactly when that
job is still the current one; if a newer job has since become current the
pointer is left unchanged. -/
theorem run_stream_finally_spec (ptr : Option String) (job_id : String) :
    (ptr = some job_id → _run_stream_finally ptr job_id = none) ∧
    (∀ newer, newer ≠ job_id → ptr = some newer →
      _run_stream_finally ptr job_id = some newer) ∧
    (ptr = none → _run_stream_finally ptr job_id = none) := by
  refine ⟨?_, ?_, ?_⟩
  · intro h; simp [_run_stream_finally, h]
  · intro newer hne hp
    subst hp
    simp [_run_stream_finally, hne]
  · intro h; simp [_run_stream_finally, h]

/-- Witness for C7 at concrete inputs: the thread of job `"a"` clears the
pointer when it is current, and leaves the newer job `"b"` in place. -/
theorem run_stream_finally_spec_witness :
    _run_stream_finally (some "a") "a" = none ∧
    _run_stream_finally (some "b") "a" = some "b" :=
  ⟨(run_stream_finally_spec (some "a") "a").1 rfl,
   (run_stream_finally_spec (some "b") "a").2.1 "b" (by decide) rfl⟩

/-! ## Claim C4 -/

/-- Counterexample to claim C4 as stated: for a job started with argv
`["update"]` the first output line is the echo `"$ update"`, which is not
equal to the command line `"update"` (the argv joined): the echo carries
the `"$ "` marker. -/
theorem run_stream_first_line_cex :
    firstLine ((_run_stream ["update"]
        { spawnOk := true, lines := [], rc := 0, errMsg := "", errTb := "" }
        Job.init).output) = "$ update" ∧
    pyJoin " " ["update"] = "update" ∧
    firstLine ((_run_stream ["update"]
        { spawnOk := true, lines := [], rc := 0, errMsg := "", errTb := "" }
        Job.init).output) ≠ pyJoin " " ["update"] := by
  decide

/-- Claim C4 (amended): on every path of `_run_stream` — spawn success or
exception — the first line of the job's output is the exact command line,
shell-quoted and prefixed with `"$ "`; the quoting hypothesis rules out
argv entries that themselves contain a newline. -/
theorem run_stream_first_line_echo (args : List String) (beh : RunBehavior)
    (h : '\n' ∉ (cmdline args).data) :
    firstLine ((_run_stream args beh Job.init).output) = "$ " ++ cmdline args := by
  obtain ⟨rest, hr⟩ := run_stream_output_starts_with_echo args beh
  have hdata : (echoLine args).data = ('$' :: ' ' :: (cmdline args).data) ++ '\n' :: [] := by
    show ("$ " ++ cmdline args ++ "\n").data = _
    simp [String.data_append]
  have hall : ∀ x ∈ ('$' :: ' ' :: (cmdline args).data),
      (fun c => decide (c ≠ '\n')) x = true := by
    intro x hx
    simp only [List.mem_cons] at hx
    rcases hx with rfl | rfl | hx
    · decide
    · decide
    · simp only [decide_eq_true_eq]
      exact fun hEq => h (hEq ▸ hx)
  have htw := takeWhile_all_append_cons ('$' :: ' ' :: (cmdline args).data) '\n' rest hall
    (by decide)
  rw [firstLine, hr, hdata, List.append_assoc]
  show String.mk ((('$' :: ' ' :: (cmdline args).data)
      ++ '\n' :: rest).takeWhile (fun c => decide (c ≠ '\n'))) = "$ " ++ cmdline args
  rw [htw]
  apply String.ext
  simp [String.data_append]

/-- Witness for C4's amended theorem at argv `["update"]`. -/
theorem run_stream_first_line_echo_witness :
    firstLine ((_run_stream ["update"]
        { spawnOk := true, lines := [], rc := 0, errMsg := "", errTb := "" }
        Job.init).output) = "$ " ++ cmdline ["update"] :=
  run_stream_first_line_echo ["update"] _ (by decide)

/-! ## Claims C2 and C9 -/

theorem Status.isTerminal_iff (s : Status) : s.isTerminal = true ↔ s ≠ Status.running := by
  cases s <;> simp [Status.isTerminal]

/-- Claim C2: `cancel_job` returns ok=false when the job is missing, in a
terminal state, or has no process handle; otherwise it appends the info
line, terminates, waits up to 5 seconds, escalates to kill when the
process did not exit in time, and force-finishes the job as `canceled`
with exit code −9 — independently of the process's own exit code (last
conjunct). -/
theorem cancel_job_spec (jobs : Registry) (job_id : Option String) (beh : CancelBehavior) :
    (jobsGet jobs (job_id.getD "") = none →
      cancel_job jobs job_id beh =
        { ok := false, message := "No running job", job := none, actions := [] }) ∧
    (∀ job, jobsGet jobs (job_id.getD "") = some job →
      ((job.status.isTerminal = true ∨ job.proc = none →
        cancel_job jobs job_id beh =
          { ok := false, message := "No running job", job := some job, actions := [] }) ∧
      (job.status = Status.running → job.proc ≠ none →
        (beh.term = TermBehavior.exitsInTime →
          cancel_job jobs job_id beh =
            { ok := true, message := "Canceled",
              job := some { status := Status.canceled,
                            output := job.output
                              ++ "\n[INFO] Cancel requested, terminating process...\n",
                            rc := some (-9), proc := job.proc },
              actions := [ProcAction.terminate, ProcAction.wait 5] }) ∧
        (beh.term = TermBehavior.needsKill →
          cancel_job jobs job_id beh =
            { ok := true, message := "Canceled",
              job := some { status := Status.canceled,
                            output := job.output
                              ++ "\n[INFO] Cancel requested, terminating process...\n"
                              ++ "[INFO] Process did not terminate, killing...\n",
                            rc := some (-9), proc := job.proc },
              actions := [ProcAction.terminate, ProcAction.wait 5, ProcAction.kill,
                          ProcAction.wait 5] })))) ∧
    (∀ rc1 rc2 : Int,
      cancel_job jobs job_id ⟨beh.term, rc1⟩ = cancel_job jobs job_id ⟨beh.term, rc2⟩) := by
  refine ⟨?_, fun job hget => ⟨?_, fun hs hp => ⟨?_, ?_⟩⟩, ?_⟩
  · intro hget
    simp [cancel_job, hget]
  · intro hfail
    have hcond : job.status ≠ Status.running ∨ job.proc = none :=
      hfail.imp (fun hh => (Status.isTerminal_iff _).mp hh) id
    simp only [cancel_job, hget]
    rw [if_pos hcond]
  · intro hterm
    have hcond : ¬(job.status ≠ Status.running ∨ job.proc = none) :=
      fun hor => hor.elim (fun hne => hne hs) hp
    simp only [cancel_job, hget, hterm]
    rw [if_neg hcond]
    rfl
  · intro hterm
    have hcond : ¬(job.status ≠ Status.running ∨ job.proc = none) :=
      fun hor => hor.elim (fun hne => hne hs) hp
    simp only [cancel_job, hget, hterm]
    rw [if_neg hcond]
    rfl
  · intro rc1 rc2
    rfl

/-- Witness for C2 at a concrete running job with a live handle: the
process exits within the grace period and the job ends `canceled` with
rc −9. -/
theorem cancel_job_spec_witness :
    cancel_job [("a", { status := Status.running, output := "o", rc := none,
                        proc := some () })]
        (some "a") ⟨TermBehavior.exitsInTime, 7⟩ =
      { ok := true, message := "Canceled",
        job := some { status := Status.canceled,
                      output := "o" ++ "\n[INFO] Cancel requested, terminating process...\n",
                      rc := some (-9), proc := some () },
        actions := [ProcAction.terminate, ProcAction.wait 5] } :=
  (((cancel_job_spec
        [("a", { status := Status.running, output := "o", rc := none, proc := some () })]
        (some "a") ⟨TermBehavior.exitsInTime, 7⟩).2.1
      { status := Status.running, output := "o", rc := none, proc := some () }
      (by decide)).2 rfl (by decide)).1 rfl

/-- Claim C9: when the terminate/kill/wait sequence raises, `cancel_job`
returns ok=false carrying the error message, the job's status and exit
code are untouched (it stays `running`), and the only change to the job
is the appended info/error lines. -/
theorem cancel_job_exception_spec (jobs : Registry) (job_id : Option String)
    (beh : CancelBehavior) (job : Job) (msg : String)
    (hget : jobsGet jobs (job_id.getD "") = some job)
    (hs : job.status = Status.running) (hp : job.proc ≠ none)
    (hterm : beh.term = TermBehavior.raisesEarly msg ∨
      beh.term = TermBehavior.raisesLate msg) :
    (cancel_job jobs job_id beh).ok = false ∧
    (cancel_job jobs job_id beh).message = msg ∧
    ∃ j2, (cancel_job jobs job_id beh).job = some j2 ∧
      j2.status = Status.running ∧ j2.rc = job.rc ∧ j2.proc = job.proc ∧
      (j2.output = job.output ++ "\n[INFO] Cancel requested, terminating process...\n"
          ++ ("[ERROR] Cancel failed: " ++ msg ++ "\n") ∨
       j2.output = job.output ++ "\n[INFO] Cancel requested, terminating process...\n"
          ++ "[INFO] Process did not terminate, killing...\n"
          ++ ("[ERROR] Cancel failed: " ++ msg ++ "\n")) := by
  have hcond : ¬(job.status ≠ Status.running ∨ job.proc = none) :=
    fun hor => hor.elim (fun hne => hne hs) hp
  rcases hterm with hterm | hterm
  · simp only [cancel_job, hget, hterm]
    rw [if_neg hcond]
    exact ⟨rfl, rfl, _, rfl, hs, rfl, rfl, Or.inl rfl⟩
  · simp only [cancel_job, hget, hterm]
    rw [if_neg hcond]
    exact ⟨rfl, rfl, _, rfl, hs, rfl, rfl, Or.inr rfl⟩

/-- Witness for C9: a raising terminate on a concrete running job leaves
it `running` with its exit code unset. -/
theorem cancel_job_exception_spec_witness :
    (cancel_job [("a", { status := Status.running, output := "o", rc := none,
                         proc := some () })]
        (some "a") ⟨TermBehavior.raisesEarly "boom", 0⟩).ok = false ∧
    (cancel_job [("a", { status := Status.running, output := "o", rc := none,
                         proc := some () })]
        (some "a") ⟨TermBehavior.raisesEarly "boom", 0⟩).message = "boom" ∧
    ∃ j2, (cancel_job [("a", { status := Status.running, output := "o", rc := none,
                               proc := some () })]
        (some "a") ⟨TermBehavior.raisesEarly "boom", 0⟩).job = some j2 ∧
      j2.status = Status.running ∧ j2.rc = none ∧ j2.proc = some () ∧
      (j2.output = "o" ++ "\n[INFO] Cancel requested, terminating process...\n"
          ++ ("[ERROR] Cancel failed: " ++ "boom" ++ "\n") ∨
       j2.output = "o" ++ "\n[INFO] Cancel requested, terminating process...\n"
          ++ "[INFO] Process did not terminate, killing...\n"
          ++ ("[ERROR] Cancel failed: " ++ "boom" ++ "\n")) :=
  cancel_job_exception_spec
    [("a", { status := Status.running, output := "o", rc := none, proc := some () })]
    (some "a") ⟨TermBehavior.raisesEarly "boom", 0⟩
    { status := Status.running, output := "o", rc := none, proc := some () }
    "boom" (by decide) rfl (by decide) (Or.inl rfl)

/-! ## Claim C5 -/

theorem sessGet_cons_of_ne (a : String × Nat) (t : SessionRegistry) (t2 : String)
    (h : ¬(a.1 = t2)) : sessGet (a :: t) t2 = sessGet t t2 := by
  simp [sessGet, List.find?_cons, h]

theorem sessGet_cons_of_eq (a : String × Nat) (t : SessionRegistry) (t2 : String)
    (h : a.1 = t2) : sessGet (a :: t) t2 = some a.2 := by
  simp [sessGet, List.find?_cons, h]

theorem sessPop_cons_of_eq (a : String × Nat) (t : SessionRegistry) (token : String)
    (h : a.1 = token) : sessPop (a :: t) token = sessPop t token := by
  simp [sessPop, List.filter_cons, h]

theorem sessPop_cons_of_ne (a : String × Nat) (t : SessionRegistry) (token : String)
    (h : ¬(a.1 = token)) : sessPop (a :: t) token = a :: sessPop t token := by
  simp [sessPop, List.filter_cons, h]

theorem sessGet_sessPop_self (reg : SessionRegistry) (token : String) :
    sessGet (sessPop reg token) token = none := by
  induction reg with
  | nil => rfl
  | cons a t ih =>
    by_cases hak : a.1 = token
    · rw [sessPop_cons_of_eq a t token hak]
      exact ih
    · rw [sessPop_cons_of_ne a t token hak, sessGet_cons_of_ne a _ token hak]
      exact ih

theorem sessGet_sessPop_other (reg : SessionRegistry) (token t2 : String)
    (h : t2 ≠ token) : sessGet (sessPop reg token) t2 = sessGet reg t2 := by
  induction reg with
  | nil => rfl
  | cons a t ih =>
    by_cases hak : a.1 = token
    · have hne : ¬(a.1 = t2) := fun hEq => h (hEq ▸ hak)
      rw [sessPop_cons_of_eq a t token hak, ih, sessGet_cons_of_ne a t t2 hne]
    · by_cases hat : a.1 = t2
      · rw [sessPop_cons_of_ne a t token hak, sessGet_cons_of_eq a _ t2 hat,
          sessGet_cons_of_eq a t t2 hat]
      · rw [sessPop_cons_of_ne a t token hak, sessGet_cons_of_ne a _ t2 hat, ih,
          sessGet_cons_of_ne a t t2 hat]

theorem submit_login_code_of_unknown (reg : SessionRegistry) (token : String)
    (beh : SubmitBehavior) (h : sessGet reg token = none) :
    submit_login_code reg token beh =
      { flashes := [("Login session expired — start again.", "error")],
        registry := reg, closeCalls := 0, sessionTokenPopped := false } := by
  simp [submit_login_code, h]

/-- Claim C5: `submit_login_code` with an unknown token flashes "session
expired" and has no side effects; with a known token it always (success,
failure, and independently of close errors) closes the child exactly
once, removes exactly that token from the registry, and a second
submission with the same token hits the expired branch — no session is
resumable twice. -/
theorem submit_login_code_spec (reg : SessionRegistry) (token : String)
    (beh : SubmitBehavior) :
    (sessGet reg token = none →
      submit_login_code reg token beh =
        { flashes := [("Login session expired — start again.", "error")],
          registry := reg, closeCalls := 0, sessionTokenPopped := false }) ∧
    (∀ c, sessGet reg token = some c →
      (submit_login_code reg token beh).closeCalls = 1 ∧
      (submit_login_code reg token beh).sessionTokenPopped = true ∧
      sessGet (submit_login_code reg token beh).registry token = none ∧
      (∀ t2, t2 ≠ token →
        sessGet (submit_login_code reg token beh).registry t2 = sessGet reg t2) ∧
      (∀ before, beh.run = SubmitRun.eofOk before →
        (submit_login_code reg token beh).flashes = [(before, "info")]) ∧
      (∀ msg, beh.run = SubmitRun.raisesMsg msg →
        (submit_login_code reg token beh).flashes =
          [("2FA login error: " ++ msg, "error")]) ∧
      (∀ beh2, submit_login_code (submit_login_code reg token beh).registry token beh2 =
        { flashes := [("Login session expired — start again.", "error")],
          registry := (submit_login_code reg token beh).registry,
          closeCalls := 0, sessionTokenPopped := false })) ∧
    (∀ b1 b2 : Bool,
      submit_login_code reg token ⟨beh.run, b1⟩ =
        submit_login_code reg token ⟨beh.run, b2⟩) := by
  refine ⟨?_, fun c hget => ?_, fun b1 b2 => rfl⟩
  · exact submit_login_code_of_unknown reg token beh
  · have hreg : (submit_login_code reg token beh).registry = sessPop reg token := by
      simp [submit_login_code, hget]
    refine ⟨?_, ?_, ?_, ?_, ?_, ?_, ?_⟩
    · simp [submit_login_code, hget]
    · simp [submit_login_code, hget]
    · rw [hreg]; exact sessGet_sessPop_self reg token
    · intro t2 h2
      rw [hreg]; exact sessGet_sessPop_other reg token t2 h2
    · intro before hrun
      simp [submit_login_code, hget, hrun]
    · intro msg hrun
      simp [submit_login_code, hget, hrun]
    · intro beh2
      have hnone : sessGet (submit_login_code reg token beh).registry token = none := by
        rw [hreg]; exact sessGet_sessPop_self reg token
      exact submit_login_code_of_unknown _ token beh2 hnone

/-- Witness for C5 at a concrete one-entry registry. -/
theorem submit_login_code_spec_witness :
    (submit_login_code [("t", 1)] "t" ⟨SubmitRun.eofOk "welcome", true⟩).closeCalls = 1 ∧
    sessGet (submit_login_code [("t", 1)] "t"
        ⟨SubmitRun.eofOk "welcome", true⟩).registry "t" = none ∧
    submit_login_code [("u", 2)] "t" ⟨SubmitRun.eofOk "welcome", true⟩ =
      { flashes := [("Login session expired — start again.", "error")],
        registry := [("u", 2)], closeCalls := 0, sessionTokenPopped := false } := by
  have h1 := (submit_login_code_spec [("t", 1)] "t" ⟨SubmitRun.eofOk "welcome", true⟩).2.1
    1 (by decide)
  have h2 := (submit_login_code_spec [("u", 2)] "t" ⟨SubmitRun.eofOk "welcome", true⟩).1
    (by decide)
  exact ⟨h1.1, h1.2.2.1, h2⟩

/-! ## Claim C3 -/

/-- Claim C3 is refuted by the code (code bug): on the username-prompt
timeout exit path the first-step login flow leaves the spawned child
process open — `begin_login` reports a spawned, unparked child with no
`close(force=True)` call, leaking the pseudo-terminal; the same holds for
the other timeout and exception paths, while the EOF path does close the
child. -/
theorem begin_login_timeout_leaks_child :
    (begin_login "tok" BeginBehavior.usernameTimeout).spawned = true ∧
    (begin_login "tok" BeginBehavior.usernameTimeout).parked = none ∧
    (begin_login "tok" BeginBehavior.usernameTimeout).closed = false ∧
    (begin_login "tok" BeginBehavior.outcomeTimeout).closed = false ∧
    (begin_login "tok" (BeginBehavior.otherError "oops")).closed = false ∧
    (begin_login "tok" (BeginBehavior.eof "done")).closed = true := by
  refine ⟨rfl, rfl, rfl, rfl, rfl, rfl⟩

/-! ## Claim C8 -/

/-- Claim C8: the binary cache-aside returns the cached path while the
cached file's age is within the TTL; otherwise it fetches, persists, and
returns the cache path; and on fetch failure it returns the stale cached
path when one exists, else nothing. -/
theorem cache_cover_from_url_spec (fs : FsState) (hashHex : String → String)
    (fetchOk : Bool) (url : String) (hurl : url ≠ "") :
    (∀ m, fs.mtimeMs (_cover_cache_path_from_url hashHex (pyStrip url)) = some m →
      fs.nowMs - m < COVER_TTL →
      _cache_cover_from_url fs hashHex fetchOk url =
        { result := some (_cover_cache_path_from_url hashHex (pyStrip url)),
          fetched := false, persisted := false }) ∧
    (_is_fresh fs (_cover_cache_path_from_url hashHex (pyStrip url)) COVER_TTL = false →
      fetchOk = true →
      _cache_cover_from_url fs hashHex fetchOk url =
        { result := some (_cover_cache_path_from_url hashHex (pyStrip url)),
          fetched := true, persisted := true }) ∧
    (∀ m, fs.mtimeMs (_cover_cache_path_from_url hashHex (pyStrip url)) = some m →
      ¬(fs.nowMs - m < COVER_TTL) → fetchOk = false →
      _cache_cover_from_url fs hashHex fetchOk url =
        { result := some (_cover_cache_path_from_url hashHex (pyStrip url)),
          fetched := true, persisted := false }) ∧
    (fs.mtimeMs (_cover_cache_path_from_url hashHex (pyStrip url)) = none →
      fetchOk = false →
      _cache_cover_from_url fs hashHex fetchOk url =
        { result := none, fetched := true, persisted := false }) := by
  refine ⟨?_, ?_, ?_, ?_⟩
  · intro m hm hlt
    have hf : _is_fresh fs (_cover_cache_path_from_url hashHex (pyStrip url))
        COVER_TTL = true := by
      simp [_is_fresh, hm, hlt]
    simp [_cache_cover_from_url, hurl, hf]
  · intro hf hfetch
    simp [_cache_cover_from_url, hurl, hf, hfetch]
  · intro m hm hge hfetch
    have hf : _is_fresh fs (_cover_cache_path_from_url hashHex (pyStrip url))
        COVER_TTL = false := by
      simp [_is_fresh, hm, hge]
    simp [_cache_cover_from_url, hurl, hf, hfetch, hm]
  · intro hm hfetch
    have hf : _is_fresh fs (_cover_cache_path_from_url hashHex (pyStrip url))
        COVER_TTL = false := by
      simp [_is_fresh, hm]
    simp [_cache_cover_from_url, hurl, hf, hfetch, hm]

/-- Witness for C8: with a fresh cached file the cached path is returned
without fetching, and with no cached file and a failing fetch the result
is empty. -/
theorem cache_cover_from_url_spec_witness :
    _cache_cover_from_url
        { mtimeMs := fun p => if p = "/data/Cache/cover/K.jpg" then some 0 else none,
          nowMs := 5 }
        (fun _ => "K") false "http://x/y.jpg" =
      { result := some "/data/Cache/cover/K.jpg", fetched := false, persisted := false } ∧
    _cache_cover_from_url
        { mtimeMs := fun _ => none, nowMs := 5 }
        (fun _ => "K") false "http://x/y.jpg" =
      { result := none, fetched := true, persisted := false } := by
  constructor
  · have h := (cache_cover_from_url_spec
        { mtimeMs := fun p => if p = "/data/Cache/cover/K.jpg" then some 0 else none,
          nowMs := 5 }
        (fun _ => "K") false "http://x/y.jpg" (by decide)).1 0 (by decide) (by decide)
    simpa using h
  · have h := (cache_cover_from_url_spec
        { mtimeMs := fun _ => none, nowMs := 5 }
        (fun _ => "K") false "http://x/y.jpg" (by decide)).2.2.2 rfl rfl
    simpa using h

/-! ## Claim C6 -/

theorem jobsGet_of_mem_nodup (jobs : Registry) (pr : String × Job)
    (hmem : pr ∈ jobs) (hnd : (jobs.map Prod.fst).Nodup) :
    jobsGet jobs pr.1 = some pr.2 := by
  induction jobs with
  | nil => cases hmem
  | cons a t ih =>
    rcases List.mem_cons.mp hmem with hEq | hmem2
    · subst hEq
      simp [jobsGet]
    · rw [List.map_cons] at hnd
      have hnd2 := List.nodup_cons.mp hnd
      have hne : a.1 ≠ pr.1 := by
        intro hEq
        exact hnd2.1 (hEq ▸ List.mem_map_of_mem Prod.fst hmem2)
      have := ih hmem2 hnd2.2
      simpa [jobsGet, List.find?_cons, hne] using this

/-- Claim C6: `current_job` answers the snapshot of the job at the
current-job pointer; with an empty pointer it scans the registry for a
job still `running` and answers that job's snapshot; when no job is
`running` it answers the idle result. -/
theorem current_job_spec (jobs : Registry) (ptr : Option String) :
    (∀ jid job, ptr = some jid → jobsGet jobs jid = some job →
      current_job jobs ptr =
        { job_id := some jid, status := statusStr job.status,
          output := job.output, rc := job.rc }) ∧
    (ptr = none →
      ((∀ pr ∈ jobs, pr.2.status ≠ Status.running) →
        current_job jobs ptr = idleJson) ∧
      ((jobs.map Prod.fst).Nodup →
        ∀ pr, jobs.find? (fun p => p.2.status == Status.running) = some pr →
          pr.2.status = Status.running ∧
          current_job jobs ptr =
            { job_id := some pr.1, status := statusStr pr.2.status,
              output := pr.2.output, rc := pr.2.rc })) := by
  refine ⟨?_, fun hp => ⟨?_, ?_⟩⟩
  · intro jid job hptr hget
    subst hptr
    simp [current_job, hget]
  · intro hnone
    subst hp
    have hfind : jobs.find? (fun p => p.2.status == Status.running) = none := by
      rw [List.find?_eq_none]
      intro x hx
      simp only [beq_iff_eq]
      exact fun hEq => hnone x hx hEq
    simp [current_job, hfind, idleJson]
  · intro hnd pr hfind
    subst hp
    have hrun : pr.2.status = Status.running := by
      have := List.find?_some hfind
      simpa [beq_iff_eq] using this
    have hmem := List.mem_of_find?_eq_some hfind
    have hget := jobsGet_of_mem_nodup jobs pr hmem hnd
    exact ⟨hrun, by simp [current_job, hfind, hget]⟩

/-- Witness for C6: the pointer wins when set; with an empty pointer the
scan returns the running job; an empty registry gives idle. -/
theorem current_job_spec_witness :
    current_job [("a", { status := Status.running, output := "o", rc := none,
                         proc := some () })] (some "a") =
      { job_id := some "a", status := "running", output := "o", rc := none } ∧
    current_job [("a", { status := Status.running, output := "o", rc := none,
                         proc := some () })] none =
      { job_id := some "a", status := "running", output := "o", rc := none } ∧
    current_job [] none = idleJson := by
  refine ⟨?_, ?_, ?_⟩
  · have h := (current_job_spec
        [("a", { status := Status.running, output := "o", rc := none, proc := some () })]
        (some "a")).1 "a"
      { status := Status.running, output := "o", rc := none, proc := some () }
      rfl (by decide)
    simpa using h
  · have h := ((current_job_spec
        [("a", { status := Status.running, output := "o", rc := none, proc := some () })]
        none).2 rfl).2 (by decide)
      ("a", { status := Status.running, output := "o", rc := none, proc := some () })
      (by decide)
    simpa using h.2
  · exact ((current_job_spec [] none).2 rfl).1 (by intro pr hpr; cases hpr)

/-! ## Claim C1 -/

theorem raceStep_status_same_or_terminal (s t : RaceState) (h : RaceStep s t) :
    t.job.status = s.job.status ∨ t.job.status.isTerminal = true := by
  cases h with
  | bgAppendLine line hpc => exact Or.inl rfl
  | bgSetProc hpc => exact Or.inl rfl
  | bgWaitReturns hpc => exact Or.inl rfl
  | bgRaises errText hpc => exact Or.inl rfl
  | bgCheckRunning hpc hst => exact Or.inl rfl
  | bgCheckNotRunning hpc hst => exact Or.inl rfl
  | bgFinish hpc =>
    right
    by_cases h0 : s.bgRc = 0 <;> simp [Job.finish, Status.isTerminal, h0]
  | bgExcFinish hpc =>
    right
    simp [Job.finish, Status.isTerminal]
  | cancelGuardPass hpc hst hproc => exact Or.inl rfl
  | cancelGuardFail hpc hcond => exact Or.inl rfl
  | cancelKillLine hpc => exact Or.inl rfl
  | cancelWaitReturns hpc => exact Or.inl rfl
  | cancelRaises msg hpc => exact Or.inl rfl
  | cancelFinish hpc =>
    right
    simp [Job.finish, Status.isTerminal]

theorem raceStep_keeps_not_running (s t : RaceState) (h : RaceStep s t)
    (hs : s.job.status ≠ Status.running) : t.job.status ≠ Status.running := by
  rcases raceStep_status_same_or_terminal s t h with he | ht
  · rw [he]; exact hs
  · exact (Status.isTerminal_iff _).mp ht

/-- Claim C1 (amended): from the start of a submitted job the status is
`running`; every step of the race between the background exit path and
`cancel_job` either leaves the status alone or writes a terminal value;
and along every interleaving, once the status is terminal it never
reverts to `running` — although (see the counterexample) one terminal
value can still be overwritten by the other racing writer, so the status
is written at least once, last write wins, rather than exactly once. -/
theorem job_status_race_never_reverts (rc : Int) :
    (raceInit rc).job.status = Status.running ∧
    (∀ s t : RaceState, RaceStep s t →
      t.job.status = s.job.status ∨ t.job.status.isTerminal = true) ∧
    (∀ s t : RaceState, Star RaceStep s t →
      s.job.status ≠ Status.running → t.job.status ≠ Status.running) := by
  refine ⟨rfl, raceStep_status_same_or_terminal, ?_⟩
  intro s t hstar
  induction hstar with
  | refl => exact fun hs => hs
  | tail hab hbc ih =>
    intro hs
    exact raceStep_keeps_not_running _ _ hbc (ih hs)

/-- Witness for C1's amended theorem: a concrete canceled state stays
non-`running` across a concrete step of the race. -/
theorem job_status_race_never_reverts_witness :
    ({ job := { status := Status.canceled, output := "", rc := some (-9),
                proc := some () },
       bg := BgPC.done, cancel := CancelPC.done, bgRc := 0 } : RaceState).job.status
      ≠ Status.running :=
  (job_status_race_never_reverts 0).2.2
    { job := { status := Status.canceled, output := "", rc := some (-9),
               proc := some () },
      bg := BgPC.postWait, cancel := CancelPC.done, bgRc := 0 }
    { job := { status := Status.canceled, output := "", rc := some (-9),
               proc := some () },
      bg := BgPC.done, cancel := CancelPC.done, bgRc := 0 }
    (Star.tail (Star.refl _)
      (RaceStep.bgCheckNotRunning
        { job := { status := Status.canceled, output := "", rc := some (-9),
                   proc := some () },
          bg := BgPC.postWait, cancel := CancelPC.done, bgRc := 0 }
        rfl (by decide)))
    (by decide)

/-- Counterexample to claim C1 as stated: an explicit interleaving of the
code's own steps in which `cancel_job` finishes the job as `canceled`
(terminal) and the background thread — whose lock-free
`status == "running"` test already passed — then overwrites it with
`finished`: the status is written twice and leaves a terminal state for
another terminal state (though never back to `running`). -/
theorem job_status_terminal_overwritten_cex :
    Star RaceStep (raceInit 0) cexCanceled ∧
    cexCanceled.job.status = Status.canceled ∧
    cexCanceled.job.status.isTerminal = true ∧
    RaceStep cexCanceled cexFinished ∧
    cexFinished.job.status = Status.finished ∧
    cexFinished.job.status ≠ cexCanceled.job.status := by
  refine ⟨?_, rfl, rfl, ?_, rfl, by decide⟩
  · exact Star.tail (Star.tail (Star.tail (Star.tail (Star.tail (Star.tail
      (Star.refl (raceInit 0))
      (RaceStep.bgSetProc (raceInit 0) rfl))
      (RaceStep.bgWaitReturns _ rfl))
      (RaceStep.bgCheckRunning _ rfl rfl))
      (RaceStep.cancelGuardPass _ rfl rfl (by decide)))
      (RaceStep.cancelWaitReturns _ rfl))
      (RaceStep.cancelFinish _ rfl)
  · exact RaceStep.bgFinish cexCanceled rfl

/-! ## Claim C10 -/

theorem jobsGet_isSome_map (jobs : Registry) (F : String × Job → String × Job)
    (hF : ∀ p, (F p).1 = p.1) (id : String) :
    (jobsGet (jobs.map F) id).isSome = (jobsGet jobs id).isSome := by
  have hpred : ((fun p : String × Job => decide (p.1 = id)) ∘ F)
      = fun p : String × Job => decide (p.1 = id) := by
    funext p
    simp [Function.comp, hF p]
  simp [jobsGet, List.find?_map, hpred]

theorem jobsGet_isSome_append (jobs : Registry) (pr : String × Job) (id : String)
    (h : (jobsGet jobs id).isSome = true) :
    (jobsGet (jobs ++ [pr]) id).isSome = true := by
  obtain ⟨j, hj⟩ := Option.isSome_iff_exists.mp h
  rw [jobsGet] at hj
  obtain ⟨a, ha, hha⟩ := Option.map_eq_some'.mp hj
  rw [jobsGet, List.find?_append, ha]
  rfl

theorem jobsGet_jobsSet_self (jobs : Registry) (k : String) (j : Job) :
    jobsGet (jobsSet jobs k j) k = some j := by
  by_cases hf : (jobs.find? (fun p => p.1 = k)).isSome
  · obtain ⟨a, ha⟩ := Option.isSome_iff_exists.mp hf
    have hak : a.1 = k := by simpa using List.find?_some ha
    have hpred : ((fun p : String × Job => decide (p.1 = k))
        ∘ (fun p : String × Job => if p.1 = k then (p.1, j) else p))
        = fun p : String × Job => decide (p.1 = k) := by
      funext p
      by_cases hp : p.1 = k <;> simp [hp]
    simp [jobsSet, hf, jobsGet, List.find?_map, hpred, ha, hak]
  · have hn : jobs.find? (fun p => decide (p.1 = k)) = none := by
      cases hx : jobs.find? (fun p => decide (p.1 = k)) with
      | none => rfl
      | some a => rw [hx] at hf; simp at hf
    simp [jobsSet, hf, jobsGet, List.find?_append, hn, List.find?_cons]

theorem applyOp_keeps_jobsGet_isSome (st : OrchState) (op : SysOp) (id : String)
    (h : (jobsGet st.jobs id).isSome = true) :
    (jobsGet (applyOp st op).jobs id).isSome = true := by
  cases op with
  | startJob newId =>
    show (jobsGet (jobsSet st.jobs newId Job.init) id).isSome = true
    by_cases hf : (st.jobs.find? (fun p => p.1 = newId)).isSome
    · rw [jobsSet, if_pos hf,
        jobsGet_isSome_map st.jobs _ (fun p => by by_cases hp : p.1 = newId <;> simp [hp]) id]
      exact h
    · rw [jobsSet, if_neg hf]
      exact jobsGet_isSome_append st.jobs (newId, Job.init) id h
  | mutate jid m =>
    show (jobsGet (jobsUpdate st.jobs jid m) id).isSome = true
    rw [jobsUpdate,
      jobsGet_isSome_map st.jobs _ (fun p => by by_cases hp : p.1 = jid <;> simp [hp]) id]
    exact h
  | runStreamDone jid => exact h
  | cancel jid beh =>
    simp only [applyOp]
    cases hc : (cancel_job st.jobs jid beh).job with
    | none => exact h
    | some j =>
      rw [jobsGet_isSome_map st.jobs _
        (fun p => by by_cases hp : p.1 = jid.getD "" <;> simp [hp]) id]
      exact h

theorem applyOps_keeps_jobsGet_isSome (ops : List SysOp) (st : OrchState) (id : String)
    (h : (jobsGet st.jobs id).isSome = true) :
    (jobsGet (applyOps st ops).jobs id).isSome = true := by
  induction ops generalizing st with
  | nil => exact h
  | cons op rest ih =>
    exact ih (applyOp st op) (applyOp_keeps_jobsGet_isSome st op id h)

theorem job_status_of_isSome (jobs : Registry) (id : String)
    (h : (jobsGet jobs id).isSome = true) :
    (job_status jobs id).status ≠ "unknown" ∧
    (job_status jobs id).status
      ∈ ["running", "finished", "error", "canceled"] := by
  obtain ⟨j, hj⟩ := Option.isSome_iff_exists.mp h
  obtain ⟨st2, out2, rc2, proc2⟩ := j
  refine ⟨?_, ?_⟩ <;>
    · simp only [job_status, hj]
      cases st2 <;> decide

/-- Claim C10: `start_job` registers the new job before returning its id,
no operation of the subsystem ever removes a registry key, and therefore
`job_status` on an id returned by `start_job` answers a real snapshot —
one of the four job statuses, never the `"unknown"` sentinel — after any
sequence of subsequent operations. -/
theorem registry_grow_only_spec (st : OrchState) (newId : String) (ops : List SysOp) :
    jobsGet (start_job st newId).2.jobs (start_job st newId).1 = some Job.init ∧
    (∀ id, (jobsGet st.jobs id).isSome = true →
      (jobsGet (applyOps st ops).jobs id).isSome = true) ∧
    (job_status (applyOps (start_job st newId).2 ops).jobs (start_job st newId).1).status
      ≠ "unknown" ∧
    (job_status (applyOps (start_job st newId).2 ops).jobs (start_job st newId).1).status
      ∈ ["running", "finished", "error", "canceled"] := by
  have hself : jobsGet (start_job st newId).2.jobs newId = some Job.init :=
    jobsGet_jobsSet_self st.jobs newId Job.init
  have hsome : (jobsGet (start_job st newId).2.jobs newId).isSome = true := by
    rw [hself]; rfl
  have hkeep := applyOps_keeps_jobsGet_isSome ops (start_job st newId).2 newId hsome
  exact ⟨hself, fun id h => applyOps_keeps_jobsGet_isSome ops st id h,
    (job_status_of_isSome _ newId hkeep).1, (job_status_of_isSome _ newId hkeep).2⟩

/-- Witness for C10: a fresh job under id `"a"`, after a finish mutation
and a cancel attempt, is still present and reports a concrete status. -/
theorem registry_grow_only_spec_witness :
    jobsGet (start_job { jobs := [("z", Job.init)], currentJobId := none } "a").2.jobs
        "a" = some Job.init ∧
    (jobsGet (applyOps { jobs := [("z", Job.init)], currentJobId := none }
        [SysOp.mutate "z" (JobMut.finish 0 none),
         SysOp.cancel (some "z") ⟨TermBehavior.exitsInTime, 0⟩]).jobs "z").isSome
      = true ∧
    (job_status (applyOps
        (start_job { jobs := [("z", Job.init)], currentJobId := none } "a").2
        [SysOp.mutate "z" (JobMut.finish 0 none),
         SysOp.cancel (some "z") ⟨TermBehavior.exitsInTime, 0⟩]).jobs
      (start_job { jobs := [("z", Job.init)], currentJobId := none } "a").1).status
      ≠ "unknown" :=
  ⟨(registry_grow_only_spec { jobs := [("z", Job.init)], currentJobId := none } "a"
      [SysOp.mutate "z" (JobMut.finish 0 none),
       SysOp.cancel (some "z") ⟨TermBehavior.exitsInTime, 0⟩]).1,
   (registry_grow_only_spec { jobs := [("z", Job.init)], currentJobId := none } "a"
      [SysOp.mutate "z" (JobMut.finish 0 none),
       SysOp.cancel (some "z") ⟨TermBehavior.exitsInTime, 0⟩]).2.1 "z" (by decide),
   (registry_grow_only_spec { jobs := [("z", Job.init)], currentJobId := none } "a"
      [SysOp.mutate "z" (JobMut.finish 0 none),
       SysOp.cancel (some "z") ⟨TermBehavior.exitsInTime, 0⟩]).2.2.1⟩

end GogrepoApp
